import Mathlib

/-!
Verification development for the personal expense tracker
(`src/personalexpensetracker.py`).

The program is a Tk form application around a small core: a spreadsheet
storage adapter (`ensure_excel_exists`, `get_expenses`, `save_expenses`),
validated append (`save_and_close`), matching delete
(`delete_selected_expense`), and a summary report
(`generate_summary_report`).  This file embeds that core shallowly:

* record amounts (Python floats) are modelled as rationals `ℚ`;
* spreadsheet cells are modelled by `Cell` (numeric, text, or blank —
  a blank cell stands for a pandas `NaN` or empty cell);
* Python's built-in `float(str)` is modelled by `parseFloat` (optional
  sign, decimal digits, optional fractional part; exponents,
  infinities/NaN and digit underscores are not modelled);
* `datetime.strptime(s, "%Y-%m-%d")` is modelled by `strptimeYmd`
  (exactly four year digits, one or two month/day digits, calendar
  validation including leap years, as in CPython's `_strptime`);
* the Tk message boxes are modelled as returned signals
  (`InitOutcome`, `AddError`, the `Bool` returned by delete).
-/

namespace ExpenseTracker

/-- The canonical header row, `HEADERS` in the source. -/
def HEADERS : List String :=
  ["Date", "Category", "Amount", "Description", "Account Number",
   "Bank Name", "Wallet Type", "Wallet Address"]

/-- `EXPENSE_CATEGORIES["Personal"]` in the source. -/
def personalCategories : List String :=
  ["Rent / Mortgage", "Utilities (Electricity, Water, Gas)", "Groceries",
   "Transportation (Fuel, Public Transport, Parking)", "Internet and Mobile",
   "Insurance – Health", "Insurance – Car", "Insurance – Home",
   "Loan Payments", "Subscriptions (Netflix, Spotify, etc.)",
   "Medical / Health Expenses", "Education / Tuition", "Clothing",
   "Personal Care (Salon, Grooming, etc.)", "Dining Out",
   "Travel / Vacation", "Entertainment (Movies, Games, Events)",
   "Gifts & Donations", "Childcare", "Pet Expenses",
   "Home Maintenance / Repairs", "Emergency Fund", "Investments",
   "Hobby / Leisure Expenses", "Miscellaneous",
   "Crypto Transaction"]

/-- `EXPENSE_CATEGORIES["Business"]` in the source. -/
def businessCategories : List String :=
  ["Office Rent", "Office Utilities", "Office Supplies & Equipment",
   "Employee Salaries & Wages", "Contractor / Freelancer Payments",
   "Software & Subscriptions (Business)", "Advertising & Marketing",
   "Business Internet & Phone", "Business Travel & Accommodation",
   "Client Meals & Entertainment", "Business Insurance (Liability, etc.)",
   "Training & Development", "Taxes & Legal Fees", "Bank Charges & Fees",
   "Business Maintenance & Repairs"]

/-- `EXPENSE_CATEGORIES.get(k, [])` in the source: the taxonomy lookup
with the empty list as default. -/
def EXPENSE_CATEGORIES (k : String) : List String :=
  if k = "Personal" then personalCategories
  else if k = "Business" then businessCategories
  else []

/-- Python's `str.strip()` on the whitespace Lean's `Char.isWhitespace`
recognises: drop whitespace from both ends. -/
def pyStrip (s : String) : String :=
  String.mk
    (((s.data.dropWhile Char.isWhitespace).reverse.dropWhile
        Char.isWhitespace).reverse)

/-- Split a character list at every occurrence of the separator `c`. -/
def splitOnChar (c : Char) : List Char → List (List Char)
  | [] => [[]]
  | x :: xs =>
    let r := splitOnChar c xs
    if x = c then [] :: r
    else
      match r with
      | [] => [[x]]
      | g :: gs => (x :: g) :: gs

/-- Value of a digit string, most significant digit first. -/
def digitsToNat (cs : List Char) : Nat :=
  cs.foldl (fun a c => a * 10 + (c.toNat - 48)) 0

/-- Unsigned part of Python's `float(str)`: digits with an optional
point and fractional digits (`"5"`, `"5."`, `".5"`, `"3.14"`). -/
def parseUnsigned (cs : List Char) : Option ℚ :=
  let intPart := cs.takeWhile Char.isDigit
  let rest := cs.dropWhile Char.isDigit
  match rest with
  | [] => if intPart.isEmpty then none else some (digitsToNat intPart : ℚ)
  | '.' :: frac =>
    if frac.all Char.isDigit && !(intPart.isEmpty && frac.isEmpty) then
      some ((digitsToNat intPart : ℚ) +
        (digitsToNat frac : ℚ) / ((10 : ℚ) ^ frac.length))
    else none
  | _ => none

/-- Model of Python's built-in `float(str)`: surrounding whitespace is
ignored, then an optional sign and a decimal literal.  Exponents,
infinities, `nan` and digit underscores are not modelled. -/
def parseFloat (s : String) : Option ℚ :=
  match (pyStrip s).data with
  | [] => none
  | '+' :: cs => parseUnsigned cs
  | '-' :: cs => (parseUnsigned cs).map Neg.neg
  | cs => parseUnsigned cs

/-- Gregorian leap year. -/
def isLeapYear (y : Nat) : Bool :=
  (y % 4 = 0 && y % 100 ≠ 0) || y % 400 = 0

/-- Days in a month of a given year. -/
def daysInMonth (y m : Nat) : Nat :=
  if m = 2 then (if isLeapYear y then 29 else 28)
  else if m = 4 || m = 6 || m = 9 || m = 11 then 30
  else 31

/-- Model of `datetime.strptime(s, "%Y-%m-%d")`: exactly four year
digits, one or two month digits (01–12), one or two day digits, the
whole string consumed, and the day valid for the month and year
(CPython validates the calendar, `datetime` requires year ≥ 1). -/
def strptimeYmd (s : String) : Option (Nat × Nat × Nat) :=
  match splitOnChar '-' s.data with
  | [ys, ms, ds] =>
    if ys.length = 4 && ys.all Char.isDigit &&
        decide (1 ≤ ms.length) && ms.length ≤ 2 && ms.all Char.isDigit &&
        decide (1 ≤ ds.length) && ds.length ≤ 2 && ds.all Char.isDigit then
      let y := digitsToNat ys
      let m := digitsToNat ms
      let d := digitsToNat ds
      if 1 ≤ y && 1 ≤ m && m ≤ 12 && 1 ≤ d && d ≤ daysInMonth y m then
        some (y, m, d)
      else none
    else none
  | _ => none

/-- Left-pad the decimal rendering of `n` with zeros to width `w`. -/
def padZeros (w : Nat) (n : Nat) : String :=
  let s := toString n
  String.mk (List.replicate (w - s.length) '0') ++ s

/-- Model of `date_obj.strftime("%Y-%m")` applied after a successful
`strptime`, and of the `"Invalid Date"` fallback of the report loop. -/
def monthKey (s : String) : String :=
  match strptimeYmd s with
  | some (y, m, _) => padZeros 4 y ++ "-" ++ padZeros 2 m
  | none => "Invalid Date"

/-- One stored expense record (a row dict in the source, with the
`Amount` value coerced to a number by `get_expenses`). -/
structure Expense where
  date : String
  category : String
  amount : ℚ
  description : String
  accountNumber : String
  bankName : String
  walletType : String
  walletAddress : String
deriving DecidableEq, Repr

/-- One spreadsheet cell: a numeric cell, a text cell, or a blank cell
(standing for a missing value / pandas `NaN`). -/
inductive Cell where
  | num (q : ℚ)
  | text (s : String)
  | blank
deriving DecidableEq, Repr

/-- A parsed spreadsheet: header row and data rows, each row parallel
to the header. -/
structure Sheet where
  columns : List String
  rows : List (List Cell)
deriving DecidableEq, Repr

/-- On-disk content of the storage file: a parseable sheet, or bytes
`pd.read_excel` raises on. -/
inductive ExcelContent where
  | sheet (s : Sheet)
  | corrupt
deriving DecidableEq, Repr

/-- The storage-file slot on disk. -/
inductive FileState where
  | absent
  | file (c : ExcelContent)
deriving DecidableEq, Repr

/-- Observable outcome of `ensure_excel_exists`: file created, file
fine, header-mismatch warning box, or unreadable file recreated. -/
inductive InitOutcome where
  | created
  | ok
  | headerMismatch
  | recreated
deriving DecidableEq, Repr

/-- The header-only sheet `pd.DataFrame(columns=HEADERS)` is written
as. -/
def headerOnly : Sheet := ⟨HEADERS, []⟩

/-- `ensure_excel_exists()` from the source: create the file with only
the header row when absent; warn but leave the file untouched when its
header differs from `HEADERS`; recreate a header-only file when the
file cannot be read. -/
def ensure_excel_exists : FileState → FileState × InitOutcome
  | FileState.absent =>
    (FileState.file (ExcelContent.sheet headerOnly), InitOutcome.created)
  | FileState.file ExcelContent.corrupt =>
    (FileState.file (ExcelContent.sheet headerOnly), InitOutcome.recreated)
  | FileState.file (ExcelContent.sheet s) =>
    if s.columns = HEADERS
    then (FileState.file (ExcelContent.sheet s), InitOutcome.ok)
    else (FileState.file (ExcelContent.sheet s), InitOutcome.headerMismatch)

/-- `row.get(header, ...)`: the cell of the column named `h`, `none`
when the sheet has no such column. -/
def rowGet : List String → List Cell → String → Option Cell
  | [], _, _ => none
  | _ :: _, [], _ => none
  | c :: cs, v :: vs, h => if c = h then some v else rowGet cs vs h

/-- The string a cell contributes to a text field of the record dict:
`row.get(header, '')` defaults a missing column to `""`; a blank cell
(pandas `NaN`) is modelled as `""`; a numeric cell in a text column is
modelled by its decimal rendering. -/
def cellToText : Option Cell → String
  | none => ""
  | some Cell.blank => ""
  | some (Cell.text s) => s
  | some (Cell.num q) => toString q

/-- The `Amount` coercion of `get_expenses`:
`float(value) if pd.notna(value) else 0.0`, with `ValueError` caught
and defaulted to `0.0` alongside a printed warning.  The boolean is
that warning: it fires exactly when `float` raises — on a missing
column (value `''`) or unparseable text. -/
def coerceAmount : Option Cell → ℚ × Bool
  | none => (0, true)
  | some Cell.blank => (0, false)
  | some (Cell.num q) => (q, false)
  | some (Cell.text s) =>
    match parseFloat s with
    | some q => (q, false)
    | none => (0, true)

/-- One iteration of the `df.iterrows()` loop of `get_expenses`:
build the record dict from the row, then coerce `Amount`. -/
def rowToExpense (cols : List String) (row : List Cell) : Expense :=
  { date := cellToText (rowGet cols row "Date")
    category := cellToText (rowGet cols row "Category")
    amount := (coerceAmount (rowGet cols row "Amount")).1
    description := cellToText (rowGet cols row "Description")
    accountNumber := cellToText (rowGet cols row "Account Number")
    bankName := cellToText (rowGet cols row "Bank Name")
    walletType := cellToText (rowGet cols row "Wallet Type")
    walletAddress := cellToText (rowGet cols row "Wallet Address") }

/-- All records of a parsed sheet, in row order. -/
def readSheet (s : Sheet) : List Expense :=
  s.rows.map (rowToExpense s.columns)

/-- `get_expenses()` from the source: `ensure_excel_exists` first, then
read every row; any read failure yields the empty list. -/
def get_expenses (fs : FileState) : FileState × List Expense :=
  let fs' := (ensure_excel_exists fs).1
  match fs' with
  | FileState.file (ExcelContent.sheet s) => (fs', readSheet s)
  | _ => (fs', [])

/-- The row `pd.DataFrame(expenses, columns=HEADERS)` serialises a
record to, in canonical column order. -/
def expenseToRow (e : Expense) : List Cell :=
  [Cell.text e.date, Cell.text e.category, Cell.num e.amount,
   Cell.text e.description, Cell.text e.accountNumber,
   Cell.text e.bankName, Cell.text e.walletType,
   Cell.text e.walletAddress]

/-- `save_expenses(expenses)` from the source: overwrite the file with
the full collection under the canonical header. -/
def save_expenses (es : List Expense) : Sheet :=
  ⟨HEADERS, es.map expenseToRow⟩

/-- In-memory collection plus on-disk file, the state the application
methods act on (`self.expenses` and `expenses.xlsx`). -/
structure AppState where
  expenses : List Expense
  file : FileState
deriving DecidableEq, Repr

/-- The error dialogs `save_and_close` can show. -/
inductive AddError where
  | invalidDate
  | missingCategory
  | invalidAmount
deriving DecidableEq, Repr

/-- The entry texts `save_and_close` reads from the add-expense form,
before stripping. -/
structure AddFields where
  accountNumber : String
  bankName : String
  date : String
  category : String
  amountStr : String
  description : String
  walletType : String
  walletAddress : String
deriving DecidableEq, Repr

/-- The validation and record construction of `save_and_close` in the
source, acting on the in-memory list: strip every entry, default a
blank date to `today`, check the date parses as `%Y-%m-%d`, check the
category is non-empty, check the amount parses and is positive, then
append the new record.  Returns the appended list and the new record,
or the error dialog shown. -/
def save_and_close (today : String) (f : AddFields) (expenses : List Expense) :
    Except AddError (List Expense × Expense) :=
  let account_number := pyStrip f.accountNumber
  let bank_name := pyStrip f.bankName
  let date_str0 := pyStrip f.date
  let category := pyStrip f.category
  let amount_str := pyStrip f.amountStr
  let description := pyStrip f.description
  let wallet_type := pyStrip f.walletType
  let wallet_address := pyStrip f.walletAddress
  let date_str := if date_str0 = "" then today else date_str0
  match strptimeYmd date_str with
  | none => Except.error AddError.invalidDate
  | some _ =>
    if category = "" then Except.error AddError.missingCategory
    else
      match parseFloat amount_str with
      | none => Except.error AddError.invalidAmount
      | some amount =>
        if amount ≤ 0 then Except.error AddError.invalidAmount
        else
          let new_expense : Expense :=
            { date := date_str, category := category, amount := amount,
              description := description, accountNumber := account_number,
              bankName := bank_name, walletType := wallet_type,
              walletAddress := wallet_address }
          Except.ok (expenses ++ [new_expense], new_expense)

/-- The `add` operation on the application state: on success the list
gains the record and `save_expenses` rewrites the file; on a validation
error nothing is touched and the dialog is reported. -/
def addExpense (today : String) (f : AddFields) (s : AppState) :
    AppState × Option AddError :=
  match save_and_close today f s.expenses with
  | Except.error e => (s, some e)
  | Except.ok (es, _) =>
    ({ expenses := es,
       file := FileState.file (ExcelContent.sheet (save_expenses es)) },
     none)

/-- The values `delete_selected_expense` parses back out of the
selected tree row (the amount already through `float`). -/
structure Candidate where
  date : String
  category : String
  amount : ℚ
  description : String
  accountNumber : String
  bankName : String
  walletType : String
  walletAddress : String
deriving DecidableEq, Repr

/-- The match condition of the deletion loop: every text field equal,
the amount within the strict tolerance
`abs(expense["Amount"] - amount_to_delete) < 0.001`. -/
def matchesCandidate (c : Candidate) (e : Expense) : Bool :=
  e.date = c.date && e.category = c.category &&
  |e.amount - c.amount| < 1 / 1000 &&
  e.description = c.description && e.accountNumber = c.accountNumber &&
  e.bankName = c.bankName && e.walletType = c.walletType &&
  e.walletAddress = c.walletAddress

/-- The `for expense in self.expenses` loop of
`delete_selected_expense`: rebuild the list skipping the first match
(the `not found` conjunct keeps later matches), and report whether a
match was found. -/
def deleteScan (c : Candidate) : List Expense → List Expense × Bool
  | [] => ([], false)
  | e :: rest =>
    if matchesCandidate c e then (rest, true)
    else ((deleteScan c rest).1.cons e, (deleteScan c rest).2)

/-- `delete_selected_expense` after confirmation, on the application
state: when a match was found the shortened list is kept and persisted;
otherwise state and file stay as they were and failure is reported. -/
def delete_selected_expense (c : Candidate) (s : AppState) :
    AppState × Bool :=
  let scanned := deleteScan c s.expenses
  if scanned.2 then
    ({ expenses := scanned.1,
       file := FileState.file (ExcelContent.sheet (save_expenses scanned.1)) },
     true)
  else (s, false)

/-- `dict.get(k, 0) + a` update on an association list, preserving
insertion order as Python dicts do. -/
def bump (k : String) (a : ℚ) : List (String × ℚ) → List (String × ℚ)
  | [] => [(k, a)]
  | (k', v) :: rest =>
    if k' = k then (k', v + a) :: rest else (k', v) :: bump k a rest

/-- The accumulators of the report loop in `generate_summary_report`. -/
structure ReportAcc where
  categorySummary : List (String × ℚ)
  monthlySummary : List (String × ℚ)
  personalTotal : ℚ
  businessTotal : ℚ
  overallTotal : ℚ
deriving DecidableEq, Repr

/-- One iteration of the report loop: bump the category and month maps,
add to the personal total when the category is in the Personal list,
else to the business total when in the Business list (the `elif`), and
always to the overall total. -/
def reportLoop (acc : ReportAcc) (e : Expense) : ReportAcc :=
  let category := e.category
  let amount := e.amount
  let month_year := monthKey e.date
  { categorySummary := bump category amount acc.categorySummary
    monthlySummary := bump month_year amount acc.monthlySummary
    personalTotal :=
      if (EXPENSE_CATEGORIES "Personal").contains category
      then acc.personalTotal + amount else acc.personalTotal
    businessTotal :=
      if (EXPENSE_CATEGORIES "Personal").contains category
      then acc.businessTotal
      else if (EXPENSE_CATEGORIES "Business").contains category
      then acc.businessTotal + amount else acc.businessTotal
    overallTotal := acc.overallTotal + amount }

/-- The report `generate_summary_report` computes: the no-data dialog,
or the two sum maps and three totals. -/
inductive Report where
  | noData
  | summary (categorySummary : List (String × ℚ))
      (monthlySummary : List (String × ℚ))
      (personalTotal businessTotal overallTotal : ℚ)
deriving DecidableEq, Repr

/-- `generate_summary_report` on a freshly loaded collection: the
"No expenses recorded yet" dialog on an empty collection, otherwise the
aggregates of the loop. -/
def generate_summary_report (expenses : List Expense) : Report :=
  if expenses.isEmpty then Report.noData
  else
    let acc := expenses.foldl reportLoop ⟨[], [], 0, 0, 0⟩
    Report.summary acc.categorySummary acc.monthlySummary
      acc.personalTotal acc.businessTotal acc.overallTotal

/-- The composite `save_all(load_all())` of the spec: load the current
collection through `get_expenses` and write it back through
`save_expenses`; the resulting file is the written sheet. -/
def save_all_load_all (fs : FileState) : FileState :=
  FileState.file (ExcelContent.sheet (save_expenses (get_expenses fs).2))

/-!
Concrete data for the witnesses and counterexamples below: form inputs,
records, candidates and application states evaluated at.
-/

def wAddState : AppState := ⟨[], FileState.absent⟩

def wEmptyCatFields : AddFields := ⟨"", "", "2024-05-01", "", "5", "", "", ""⟩

def wAbcFields : AddFields := ⟨"", "", "2024-05-01", "Groceries", "abc", "", "", ""⟩

def wNegFields : AddFields := ⟨"", "", "2024-05-01", "Groceries", "-5", "", "", ""⟩

def wZeroFields : AddFields := ⟨"", "", "2024-05-01", "Groceries", "0", "", "", ""⟩

def wBadDateFields : AddFields := ⟨"", "", "2024/05/01", "Groceries", "5", "", "", ""⟩

def cexCatFields : AddFields := ⟨"", "", "2024-05-01", "Food", "5", "lunch", "", ""⟩

def cexCatExp : Expense := ⟨"2024-05-01", "Food", 5, "lunch", "", "", "", ""⟩

def cexCatState : AppState := ⟨[], FileState.file (ExcelContent.sheet headerOnly)⟩

def wDelExp : Expense := ⟨"2024-05-01", "Groceries", 50, "", "", "", "", ""⟩

def wDelCand : Candidate := ⟨"2024-05-01", "Groceries", 50, "", "", "", "", ""⟩

def wDelState : AppState :=
  ⟨[wDelExp, wDelExp],
   FileState.file (ExcelContent.sheet (save_expenses [wDelExp, wDelExp]))⟩

def cexTolExp : Expense := ⟨"2024-05-01", "Groceries", 1001 / 1000, "", "", "", "", ""⟩

def cexTolCand : Candidate := ⟨"2024-05-01", "Groceries", 1, "", "", "", "", ""⟩

def cexTolState : AppState :=
  ⟨[cexTolExp], FileState.file (ExcelContent.sheet (save_expenses [cexTolExp]))⟩

theorem business_all_not_personal :
    businessCategories.all (fun c => !(personalCategories.contains c)) = true := by
  decide

theorem business_not_personal {c : String}
    (h : businessCategories.contains c = true) :
    personalCategories.contains c = false := by
  have hmem : c ∈ businessCategories := by
    simpa using h
  have := List.all_eq_true.mp business_all_not_personal c hmem
  simpa using this

theorem EXPENSE_CATEGORIES_personal :
    EXPENSE_CATEGORIES "Personal" = personalCategories := rfl

theorem EXPENSE_CATEGORIES_business :
    EXPENSE_CATEGORIES "Business" = businessCategories := rfl

theorem deleteScan_snd (c : Candidate) (es : List Expense) :
    (deleteScan c es).2 = es.any (matchesCandidate c) := by
  induction es with
  | nil => rfl
  | cons e rest ih =>
    cases hm : matchesCandidate c e with
    | true => simp [deleteScan, hm]
    | false => simp [deleteScan, hm, ih]

theorem deleteScan_not_found (c : Candidate) (es : List Expense)
    (h : (deleteScan c es).2 = false) : (deleteScan c es).1 = es := by
  induction es with
  | nil => rfl
  | cons e rest ih =>
    cases hm : matchesCandidate c e with
    | true => simp [deleteScan, hm] at h
    | false =>
      have h' : (deleteScan c rest).2 = false := by
        simpa [deleteScan, hm] using h
      simp [deleteScan, hm, ih h']

theorem deleteScan_length (c : Candidate) (es : List Expense)
    (h : (deleteScan c es).2 = true) :
    (deleteScan c es).1.length + 1 = es.length := by
  induction es with
  | nil => simp [deleteScan] at h
  | cons e rest ih =>
    cases hm : matchesCandidate c e with
    | true => simp [deleteScan, hm]
    | false =>
      have h' : (deleteScan c rest).2 = true := by
        simpa [deleteScan, hm] using h
      simp [deleteScan, hm]
      exact ih h'

theorem deleteScan_found (c : Candidate) (es : List Expense)
    (h : (deleteScan c es).2 = true) :
    ∃ i, ∃ hi : i < es.length,
      matchesCandidate c (es.get ⟨i, hi⟩) = true ∧
      (∀ j, ∀ hj : j < es.length,
        j < i → matchesCandidate c (es.get ⟨j, hj⟩) = false) ∧
      (deleteScan c es).1 = es.take i ++ es.drop (i + 1) := by
  induction es with
  | nil => simp [deleteScan] at h
  | cons e rest ih =>
    cases hm : matchesCandidate c e with
    | true =>
      refine ⟨0, by simp, by simpa using hm, ?_, ?_⟩
      · intro j hj hj0; omega
      · simp [deleteScan, hm]
    | false =>
      have h' : (deleteScan c rest).2 = true := by
        simpa [deleteScan, hm] using h
      obtain ⟨i, hi, hmatch, hfirst, heq⟩ := ih h'
      refine ⟨i + 1, Nat.succ_lt_succ hi, by simpa using hmatch, ?_, ?_⟩
      · intro j hj hji
        cases j with
        | zero => simpa using hm
        | succ j' =>
          have hj' : j' < rest.length := Nat.lt_of_succ_lt_succ hj
          simpa using hfirst j' hj' (Nat.lt_of_succ_lt_succ hji)
      · simp [deleteScan, hm, heq]

theorem foldl_reportLoop_personal (es : List Expense) (acc : ReportAcc) :
    (es.foldl reportLoop acc).personalTotal =
      acc.personalTotal +
        ((es.filter
          (fun e => personalCategories.contains e.category)).map
            Expense.amount).sum := by
  induction es generalizing acc with
  | nil => simp
  | cons e rest ih =>
    cases hp : personalCategories.contains e.category with
    | true =>
      have hp' : e.category ∈ personalCategories := by simpa using hp
      simp [List.foldl_cons, reportLoop, EXPENSE_CATEGORIES_personal, hp', ih,
        List.filter_cons]
      ring
    | false =>
      have hp' : e.category ∉ personalCategories := by simpa using hp
      simp [List.foldl_cons, reportLoop, EXPENSE_CATEGORIES_personal, hp', ih,
        List.filter_cons]

theorem foldl_reportLoop_business (es : List Expense) (acc : ReportAcc) :
    (es.foldl reportLoop acc).businessTotal =
      acc.businessTotal +
        ((es.filter
          (fun e => businessCategories.contains e.category)).map
            Expense.amount).sum := by
  induction es generalizing acc with
  | nil => simp
  | cons e rest ih =>
    cases hb : businessCategories.contains e.category with
    | true =>
      have hb' : e.category ∈ businessCategories := by simpa using hb
      have hp' : e.category ∉ personalCategories := by
        simpa using business_not_personal hb
      simp [List.foldl_cons, reportLoop, EXPENSE_CATEGORIES_personal,
        EXPENSE_CATEGORIES_business, hp', hb', ih, List.filter_cons]
      ring
    | false =>
      have hb' : e.category ∉ businessCategories := by simpa using hb
      cases hp : personalCategories.contains e.category with
      | true =>
        have hp' : e.category ∈ personalCategories := by simpa using hp
        simp [List.foldl_cons, reportLoop, EXPENSE_CATEGORIES_personal,
          EXPENSE_CATEGORIES_business, hp', hb', ih, List.filter_cons]
      | false =>
        have hp' : e.category ∉ personalCategories := by simpa using hp
        simp [List.foldl_cons, reportLoop, EXPENSE_CATEGORIES_personal,
          EXPENSE_CATEGORIES_business, hp', hb', ih, List.filter_cons]

theorem foldl_reportLoop_overall (es : List Expense) (acc : ReportAcc) :
    (es.foldl reportLoop acc).overallTotal =
      acc.overallTotal + (es.map Expense.amount).sum := by
  induction es generalizing acc with
  | nil => simp
  | cons e rest ih =>
    simp [List.foldl_cons, reportLoop, ih]
    ring

theorem rowToExpense_expenseToRow (e : Expense) :
    rowToExpense HEADERS (expenseToRow e) = e := by
  cases e
  rfl

theorem readSheet_save_expenses (es : List Expense) :
    readSheet (save_expenses es) = es := by
  induction es with
  | nil => rfl
  | cons e rest ih =>
    have hstep : readSheet (save_expenses (e :: rest)) =
        rowToExpense HEADERS (expenseToRow e) ::
          readSheet (save_expenses rest) := rfl
    rw [hstep, ih, rowToExpense_expenseToRow]

theorem get_expenses_of_saved (es : List Expense) :
    get_expenses (FileState.file (ExcelContent.sheet (save_expenses es))) =
      (FileState.file (ExcelContent.sheet (save_expenses es)), es) := by
  have h : (save_expenses es).columns = HEADERS := rfl
  simp [get_expenses, ensure_excel_exists, h, readSheet_save_expenses]

/-- C9: `save_all(load_all())` is idempotent on every storage-file
state: a second round produces the same file content. -/
theorem C9_save_load_idempotent (fs : FileState) :
    save_all_load_all (save_all_load_all fs) = save_all_load_all fs := by
  unfold save_all_load_all
  rw [get_expenses_of_saved]

/-- C8: the empty collection yields the explicit no-data signal and no
aggregates. -/
theorem C8_empty_report : generate_summary_report [] = Report.noData := rfl

/-- C6: `ensure_excel_exists` creates a header-only file when the file
is absent, warns and leaves the file untouched on a header mismatch,
and recreates a header-only file when the file is unreadable. -/
theorem C6_storage_setup :
    (ensure_excel_exists FileState.absent =
      (FileState.file (ExcelContent.sheet ⟨HEADERS, []⟩),
        InitOutcome.created)) ∧
    (∀ sh : Sheet, sh.columns ≠ HEADERS →
      ensure_excel_exists (FileState.file (ExcelContent.sheet sh)) =
        (FileState.file (ExcelContent.sheet sh),
          InitOutcome.headerMismatch)) ∧
    (ensure_excel_exists (FileState.file ExcelContent.corrupt) =
      (FileState.file (ExcelContent.sheet ⟨HEADERS, []⟩),
        InitOutcome.recreated)) := by
  refine ⟨rfl, ?_, rfl⟩
  intro sh hne
  simp [ensure_excel_exists, hne]

/-- C6 witness: a sheet whose header differs from the canonical one is
left untouched and only warned about. -/
theorem C6_witness :
    ((⟨["Datum"], []⟩ : Sheet).columns ≠ HEADERS) ∧
    ensure_excel_exists
        (FileState.file (ExcelContent.sheet ⟨["Datum"], []⟩)) =
      (FileState.file (ExcelContent.sheet ⟨["Datum"], []⟩),
        InitOutcome.headerMismatch) :=
  ⟨by decide, C6_storage_setup.2.1 ⟨["Datum"], []⟩ (by decide)⟩

/-- C3: on a non-empty collection the report's personal total sums the
amounts of records whose category is in the Personal list, the business
total those in the Business list, records in neither contribute to
neither subtotal, and the overall total sums every amount. -/
theorem C3_report_totals (es : List Expense) (h : es ≠ []) :
    ∃ cs ms, generate_summary_report es =
      Report.summary cs ms
        ((es.filter
          (fun e => personalCategories.contains e.category)).map
            Expense.amount).sum
        ((es.filter
          (fun e => businessCategories.contains e.category)).map
            Expense.amount).sum
        ((es.map Expense.amount).sum) := by
  have hne : es.isEmpty = false := by
    cases es with
    | nil => exact absurd rfl h
    | cons e rest => rfl
  refine ⟨(es.foldl reportLoop ⟨[], [], 0, 0, 0⟩).categorySummary,
    (es.foldl reportLoop ⟨[], [], 0, 0, 0⟩).monthlySummary, ?_⟩
  simp only [generate_summary_report, hne, Bool.false_eq_true, if_false]
  rw [foldl_reportLoop_personal, foldl_reportLoop_business,
    foldl_reportLoop_overall]
  simp

/-- C3 witness: the three-record example of the spec, with personal
total 50, business total 200 and overall total 280. -/
theorem C3_witness :
    (([⟨"2024-01-05", "Groceries", 50, "", "", "", "", ""⟩,
       ⟨"2024-01-10", "Office Rent", 200, "", "", "", "", ""⟩,
       ⟨"2024-02-05", "Groceries", 30, "", "", "", "", ""⟩] :
        List Expense) ≠ []) ∧
    (∃ cs ms, generate_summary_report
        [⟨"2024-01-05", "Groceries", 50, "", "", "", "", ""⟩,
         ⟨"2024-01-10", "Office Rent", 200, "", "", "", "", ""⟩,
         ⟨"2024-02-05", "Groceries", 30, "", "", "", "", ""⟩] =
      Report.summary cs ms
        (([⟨"2024-01-05", "Groceries", 50, "", "", "", "", ""⟩,
           ⟨"2024-01-10", "Office Rent", 200, "", "", "", "", ""⟩,
           ⟨"2024-02-05", "Groceries", 30, "", "", "", "", ""⟩].filter
          (fun e => personalCategories.contains e.category)).map
            Expense.amount).sum
        (([⟨"2024-01-05", "Groceries", 50, "", "", "", "", ""⟩,
           ⟨"2024-01-10", "Office Rent", 200, "", "", "", "", ""⟩,
           ⟨"2024-02-05", "Groceries", 30, "", "", "", "", ""⟩].filter
          (fun e => businessCategories.contains e.category)).map
            Expense.amount).sum
        (([⟨"2024-01-05", "Groceries", 50, "", "", "", "", ""⟩,
           ⟨"2024-01-10", "Office Rent", 200, "", "", "", "", ""⟩,
           ⟨"2024-02-05", "Groceries", 30, "", "", "", "", ""⟩].map
            Expense.amount).sum)) :=
  ⟨by simp, C3_report_totals _ (by simp)⟩

/-- C7: `get_expenses` maps each row to a record where a missing column
defaults to the empty string, the amount cell is coerced to a number
(numeric cells kept, text cells parsed, with default `0` and a warning
when coercion fails, `0` silently for a blank cell), a corrupt file
loads as the empty collection, and a header-only file loads as the
empty collection. -/
theorem C7_load_all :
    (∀ cols row, rowGet cols row "Date" = none →
      (rowToExpense cols row).date = "") ∧
    (∀ cols row, rowGet cols row "Category" = none →
      (rowToExpense cols row).category = "") ∧
    (∀ cols row, rowGet cols row "Description" = none →
      (rowToExpense cols row).description = "") ∧
    (∀ cols row, rowGet cols row "Account Number" = none →
      (rowToExpense cols row).accountNumber = "") ∧
    (∀ cols row, rowGet cols row "Bank Name" = none →
      (rowToExpense cols row).bankName = "") ∧
    (∀ cols row, rowGet cols row "Wallet Type" = none →
      (rowToExpense cols row).walletType = "") ∧
    (∀ cols row, rowGet cols row "Wallet Address" = none →
      (rowToExpense cols row).walletAddress = "") ∧
    (∀ cols row q, rowGet cols row "Amount" = some (Cell.num q) →
      (rowToExpense cols row).amount = q) ∧
    (∀ cols row t q, rowGet cols row "Amount" = some (Cell.text t) →
      parseFloat t = some q → (rowToExpense cols row).amount = q) ∧
    (∀ cols row, rowGet cols row "Amount" = some Cell.blank →
      (rowToExpense cols row).amount = 0) ∧
    (∀ cols row, rowGet cols row "Amount" = none →
      coerceAmount (rowGet cols row "Amount") = (0, true)) ∧
    (∀ cols row t, rowGet cols row "Amount" = some (Cell.text t) →
      parseFloat t = none →
      coerceAmount (rowGet cols row "Amount") = (0, true)) ∧
    ((get_expenses (FileState.file ExcelContent.corrupt)).2 = []) ∧
    ((get_expenses
        (FileState.file (ExcelContent.sheet ⟨HEADERS, []⟩))).2 = []) := by
  refine ⟨?_, ?_, ?_, ?_, ?_, ?_, ?_, ?_, ?_, ?_, ?_, ?_, rfl, rfl⟩
  · intro cols row h; simp [rowToExpense, h, cellToText]
  · intro cols row h; simp [rowToExpense, h, cellToText]
  · intro cols row h; simp [rowToExpense, h, cellToText]
  · intro cols row h; simp [rowToExpense, h, cellToText]
  · intro cols row h; simp [rowToExpense, h, cellToText]
  · intro cols row h; simp [rowToExpense, h, cellToText]
  · intro cols row h; simp [rowToExpense, h, cellToText]
  · intro cols row q h; simp [rowToExpense, h, coerceAmount]
  · intro cols row t q h hp; simp [rowToExpense, h, coerceAmount, hp]
  · intro cols row h; simp [rowToExpense, h, coerceAmount]
  · intro cols row h; simp [h, coerceAmount]
  · intro cols row t h hp; simp [h, coerceAmount, hp]

/-- C7 witness: a row with no columns at all has every text field
defaulted to the empty string. -/
theorem C7_witness :
    (rowGet [] [] "Date" = none) ∧ (rowToExpense [] []).date = "" :=
  ⟨rfl, C7_load_all.1 [] [] rfl⟩

/-- C2 (amended): `delete_selected_expense` scans for the first record
whose text fields all equal the candidate and whose amount differs by
strictly less than `0.001`; it reports whether a match was found,
removes exactly that first match (so at most one record even among
duplicates), and leaves collection and file untouched when nothing
matches. -/
theorem C2_delete_semantics (c : Candidate) (s : AppState) :
    ((delete_selected_expense c s).2 =
      s.expenses.any (matchesCandidate c)) ∧
    ((delete_selected_expense c s).2 = true →
      ∃ i, ∃ hi : i < s.expenses.length,
        matchesCandidate c (s.expenses.get ⟨i, hi⟩) = true ∧
        (∀ j, ∀ hj : j < s.expenses.length, j < i →
          matchesCandidate c (s.expenses.get ⟨j, hj⟩) = false) ∧
        (delete_selected_expense c s).1.expenses =
          s.expenses.eraseIdx i) ∧
    ((delete_selected_expense c s).2 = true →
      (delete_selected_expense c s).1.expenses.length + 1 =
        s.expenses.length) ∧
    ((delete_selected_expense c s).2 = false →
      (delete_selected_expense c s).1 = s) := by
  cases hscan : (deleteScan c s.expenses).2 with
  | true =>
    obtain ⟨i, hi, hmatch, hfirst, heq⟩ := deleteScan_found c _ hscan
    have hlen := deleteScan_length c _ hscan
    refine ⟨?_, ?_, ?_, ?_⟩
    · rw [← deleteScan_snd]
      simp [delete_selected_expense, hscan]
    · intro _
      refine ⟨i, hi, hmatch, hfirst, ?_⟩
      simp [delete_selected_expense, hscan, heq,
        List.eraseIdx_eq_take_drop_succ]
    · intro _
      simpa [delete_selected_expense, hscan] using hlen
    · intro hfalse
      simp [delete_selected_expense, hscan] at hfalse
  | false =>
    refine ⟨?_, ?_, ?_, ?_⟩
    · rw [← deleteScan_snd]
      simp [delete_selected_expense, hscan]
    · intro htrue
      simp [delete_selected_expense, hscan] at htrue
    · intro htrue
      simp [delete_selected_expense, hscan] at htrue
    · intro _
      simp [delete_selected_expense, hscan]

/-- C10: a successful delete removes a single matching record and keeps
every other record unchanged, in their original relative order, and the
rewritten file is exactly the serialisation of the remaining records. -/
theorem C10_delete_frame (c : Candidate) (s : AppState)
    (h : (delete_selected_expense c s).2 = true) :
    ∃ i, ∃ hi : i < s.expenses.length,
      matchesCandidate c (s.expenses.get ⟨i, hi⟩) = true ∧
      (delete_selected_expense c s).1.expenses =
        s.expenses.take i ++ s.expenses.drop (i + 1) ∧
      (delete_selected_expense c s).1.file =
        FileState.file (ExcelContent.sheet
          (save_expenses ((delete_selected_expense c s).1.expenses))) := by
  have hscan : (deleteScan c s.expenses).2 = true := by
    by_contra hne
    have hf : (deleteScan c s.expenses).2 = false := by
      cases hv : (deleteScan c s.expenses).2 with
      | true => exact absurd hv hne
      | false => rfl
    simp [delete_selected_expense, hf] at h
  obtain ⟨i, hi, hmatch, hfirst, heq⟩ := deleteScan_found c _ hscan
  refine ⟨i, hi, hmatch, ?_, ?_⟩
  · simp [delete_selected_expense, hscan, heq]
  · simp [delete_selected_expense, hscan]

theorem addExpense_of_error (today : String) (f : AddFields) (s : AppState) :
    ∀ err, (addExpense today f s).2 = some err →
      addExpense today f s = (s, some err) := by
  intro err h
  unfold addExpense at h ⊢
  cases hsc : save_and_close today f s.expenses with
  | error e =>
    simp only [hsc] at h ⊢
    simp at h
    simp [h]
  | ok p =>
    obtain ⟨es, e⟩ := p
    simp only [hsc] at h
    simp at h

theorem save_and_close_cases (today : String) (f : AddFields)
    (es : List Expense) (d : Nat × Nat × Nat)
    (hopt : strptimeYmd
      (if pyStrip f.date = "" then today else pyStrip f.date) = some d) :
    save_and_close today f es =
      (if pyStrip f.category = "" then
        Except.error AddError.missingCategory
      else
        match parseFloat (pyStrip f.amountStr) with
        | none => Except.error AddError.invalidAmount
        | some amount =>
          if amount ≤ 0 then Except.error AddError.invalidAmount
          else
            Except.ok (es ++
              [{ date := if pyStrip f.date = "" then today else pyStrip f.date,
                 category := pyStrip f.category, amount := amount,
                 description := pyStrip f.description,
                 accountNumber := pyStrip f.accountNumber,
                 bankName := pyStrip f.bankName,
                 walletType := pyStrip f.walletType,
                 walletAddress := pyStrip f.walletAddress }],
              { date := if pyStrip f.date = "" then today else pyStrip f.date,
                category := pyStrip f.category, amount := amount,
                description := pyStrip f.description,
                accountNumber := pyStrip f.accountNumber,
                bankName := pyStrip f.bankName,
                walletType := pyStrip f.walletType,
                walletAddress := pyStrip f.walletAddress })) := by
  simp only [save_and_close]
  rw [hopt]

theorem addExpense_eq_of_sc_error (today : String) (f : AddFields)
    (s : AppState) (err : AddError)
    (h : save_and_close today f s.expenses = Except.error err) :
    addExpense today f s = (s, some err) := by
  unfold addExpense
  rw [h]

theorem addExpense_eq_of_sc_ok (today : String) (f : AddFields)
    (s : AppState) (es : List Expense) (e : Expense)
    (h : save_and_close today f s.expenses = Except.ok (es, e)) :
    addExpense today f s =
      ({ expenses := es,
         file := FileState.file (ExcelContent.sheet (save_expenses es)) },
       none) := by
  unfold addExpense
  rw [h]

/-- C1 (amended): with a date that passes validation, `add` reports
`MissingCategory` exactly when the stripped category is empty, and then
changes nothing; membership in the taxonomy is never checked. -/
theorem C1_missing_category_only (today : String) (f : AddFields)
    (s : AppState)
    (hd : (strptimeYmd
      (if pyStrip f.date = "" then today
       else pyStrip f.date)).isSome = true) :
    ((addExpense today f s).2 = some AddError.missingCategory ↔
      pyStrip f.category = "") ∧
    (pyStrip f.category = "" →
      addExpense today f s = (s, some AddError.missingCategory)) := by
  obtain ⟨d, hopt⟩ := Option.isSome_iff_exists.mp hd
  have hsc := save_and_close_cases today f s.expenses d hopt
  by_cases hc : pyStrip f.category = ""
  · rw [if_pos hc] at hsc
    rw [addExpense_eq_of_sc_error today f s _ hsc]
    exact ⟨by simp [hc], fun _ => rfl⟩
  · rw [if_neg hc] at hsc
    cases hp : parseFloat (pyStrip f.amountStr) with
    | none =>
      simp only [hp] at hsc
      rw [addExpense_eq_of_sc_error today f s _ hsc]
      refine ⟨⟨fun hcontra => by simp at hcontra,
        fun hcat => absurd hcat hc⟩, fun hcat => absurd hcat hc⟩
    | some a =>
      simp only [hp] at hsc
      by_cases hle : a ≤ 0
      · rw [if_pos hle] at hsc
        rw [addExpense_eq_of_sc_error today f s _ hsc]
        refine ⟨⟨fun hcontra => by simp at hcontra,
          fun hcat => absurd hcat hc⟩, fun hcat => absurd hcat hc⟩
      · rw [if_neg hle] at hsc
        rw [addExpense_eq_of_sc_ok today f s _ _ hsc]
        refine ⟨⟨fun hcontra => by simp at hcontra,
          fun hcat => absurd hcat hc⟩, fun hcat => absurd hcat hc⟩

/-- C4: with date and category passing validation, `add` reports
`InvalidAmount` exactly when the amount string does not parse or
parses to a non-positive value, and an error never mutates state. -/
theorem C4_invalid_amount (today : String) (f : AddFields) (s : AppState)
    (hd : (strptimeYmd
      (if pyStrip f.date = "" then today
       else pyStrip f.date)).isSome = true)
    (hc : pyStrip f.category ≠ "") :
    ((addExpense today f s).2 = some AddError.invalidAmount ↔
      parseFloat (pyStrip f.amountStr) = none ∨
        ∃ q, parseFloat (pyStrip f.amountStr) = some q ∧ q ≤ 0) ∧
    (∀ err, (addExpense today f s).2 = some err →
      (addExpense today f s).1 = s) := by
  refine ⟨?_, fun err h => by rw [addExpense_of_error today f s err h]⟩
  obtain ⟨d, hopt⟩ := Option.isSome_iff_exists.mp hd
  have hsc := save_and_close_cases today f s.expenses d hopt
  rw [if_neg hc] at hsc
  cases hp : parseFloat (pyStrip f.amountStr) with
  | none =>
    simp only [hp] at hsc
    rw [addExpense_eq_of_sc_error today f s _ hsc]
    simp
  | some a =>
    simp only [hp] at hsc
    by_cases hle : a ≤ 0
    · rw [if_pos hle] at hsc
      rw [addExpense_eq_of_sc_error today f s _ hsc]
      exact ⟨fun _ => Or.inr ⟨a, rfl, hle⟩, fun _ => rfl⟩
    · rw [if_neg hle] at hsc
      rw [addExpense_eq_of_sc_ok today f s _ _ hsc]
      constructor
      · intro hcontra
        simp at hcontra
      · rintro (hnone | ⟨q, hq, hq0⟩)
        · cases hnone
        · injection hq with hq
          subst hq
          exact absurd hq0 hle

/-- C5: a blank date is replaced by the current date in the appended
record, a non-blank unparsable date yields the `InvalidDate` error with
nothing touched, and every validation error leaves the state (both the
collection and the file) unchanged. -/
theorem C5_date_validation (today : String) (f : AddFields)
    (s : AppState) :
    (∀ s', pyStrip f.date = "" → addExpense today f s = (s', none) →
      ∃ e, e.date = today ∧ s'.expenses = s.expenses ++ [e]) ∧
    (pyStrip f.date ≠ "" → strptimeYmd (pyStrip f.date) = none →
      addExpense today f s = (s, some AddError.invalidDate)) ∧
    (∀ err, (addExpense today f s).2 = some err →
      (addExpense today f s).1 = s) := by
  refine ⟨?_, ?_, fun err h => by rw [addExpense_of_error today f s err h]⟩
  · intro s' hblank hok
    cases hsome : strptimeYmd
        (if pyStrip f.date = "" then today else pyStrip f.date) with
    | none =>
      have herr : save_and_close today f s.expenses =
          Except.error AddError.invalidDate := by
        simp only [save_and_close]
        rw [hsome]
      rw [addExpense_eq_of_sc_error today f s _ herr] at hok
      rw [Prod.mk.injEq] at hok
      cases hok.2
    | some d =>
      have hsc := save_and_close_cases today f s.expenses d hsome
      by_cases hc : pyStrip f.category = ""
      · rw [if_pos hc] at hsc
        rw [addExpense_eq_of_sc_error today f s _ hsc] at hok
        rw [Prod.mk.injEq] at hok
        cases hok.2
      · rw [if_neg hc] at hsc
        cases hp : parseFloat (pyStrip f.amountStr) with
        | none =>
          simp only [hp] at hsc
          rw [addExpense_eq_of_sc_error today f s _ hsc] at hok
          rw [Prod.mk.injEq] at hok
          cases hok.2
        | some a =>
          simp only [hp] at hsc
          by_cases hle : a ≤ 0
          · rw [if_pos hle] at hsc
            rw [addExpense_eq_of_sc_error today f s _ hsc] at hok
            rw [Prod.mk.injEq] at hok
            cases hok.2
          · rw [if_neg hle] at hsc
            rw [addExpense_eq_of_sc_ok today f s _ _ hsc] at hok
            rw [Prod.mk.injEq] at hok
            refine ⟨{ date := if pyStrip f.date = "" then today
                        else pyStrip f.date,
                      category := pyStrip f.category, amount := a,
                      description := pyStrip f.description,
                      accountNumber := pyStrip f.accountNumber,
                      bankName := pyStrip f.bankName,
                      walletType := pyStrip f.walletType,
                      walletAddress := pyStrip f.walletAddress },
              ?_, ?_⟩
            · simp [hblank]
            · rw [← hok.1]
  · intro hnb hnone
    have hif : (if pyStrip f.date = "" then today
        else pyStrip f.date) = pyStrip f.date := if_neg hnb
    have herr : save_and_close today f s.expenses =
        Except.error AddError.invalidDate := by
      simp only [save_and_close]
      rw [hif, hnone]
    exact addExpense_eq_of_sc_error today f s _ herr

/-- C1 counterexample: the category "Food" occurs in no taxonomy list,
yet `add` accepts it, appends the record and persists it — no
`MissingCategory` error is raised. -/
theorem C1_taxonomy_not_checked :
    personalCategories.contains "Food" = false ∧
    businessCategories.contains "Food" = false ∧
    pyStrip cexCatFields.category = "Food" ∧
    addExpense "2024-05-01" cexCatFields cexCatState =
      ({ expenses := [cexCatExp],
         file := FileState.file
           (ExcelContent.sheet (save_expenses [cexCatExp])) }, none) := by
  refine ⟨by decide, by decide, rfl, ?_⟩
  rfl

/-- C1 witness: an empty category with a valid date is rejected with
`MissingCategory` and nothing changes. -/
theorem C1_witness :
    pyStrip wEmptyCatFields.category = "" ∧
    addExpense "2024-05-01" wEmptyCatFields wAddState =
      (wAddState, some AddError.missingCategory) :=
  ⟨rfl, (C1_missing_category_only "2024-05-01" wEmptyCatFields wAddState
    (by decide)).2 rfl⟩

/-- C2 witness: deleting with a fully matching candidate among two
identical records removes exactly one of them. -/
theorem C2_witness :
    (delete_selected_expense wDelCand wDelState).2 = true ∧
    (delete_selected_expense wDelCand wDelState).1.expenses.length + 1 =
      wDelState.expenses.length := by
  have hm : matchesCandidate wDelCand wDelExp = true := by
    norm_num [matchesCandidate, wDelCand, wDelExp]
  have htrue : (delete_selected_expense wDelCand wDelState).2 = true := by
    simp [delete_selected_expense, wDelState, deleteScan, hm]
  exact ⟨htrue, (C2_delete_semantics wDelCand wDelState).2.2.1 htrue⟩

/-- C2 counterexample: a record whose amount differs from the candidate
by exactly `0.001` — within the claimed at-most tolerance, every text
field equal — is not matched: the code requires strictly less than
`0.001`, so nothing is deleted and no match is reported. -/
theorem C2_tolerance_boundary :
    |cexTolExp.amount - cexTolCand.amount| ≤ 1 / 1000 ∧
    cexTolExp.date = cexTolCand.date ∧
    cexTolExp.category = cexTolCand.category ∧
    cexTolExp.description = cexTolCand.description ∧
    cexTolExp.accountNumber = cexTolCand.accountNumber ∧
    cexTolExp.bankName = cexTolCand.bankName ∧
    cexTolExp.walletType = cexTolCand.walletType ∧
    cexTolExp.walletAddress = cexTolCand.walletAddress ∧
    delete_selected_expense cexTolCand cexTolState =
      (cexTolState, false) := by
  have hm : matchesCandidate cexTolCand cexTolExp = false := by
    norm_num [matchesCandidate, cexTolCand, cexTolExp]
    exact le_abs_self _
  refine ⟨?_, rfl, rfl, rfl, rfl, rfl, rfl, rfl, ?_⟩
  · norm_num [cexTolExp, cexTolCand]
    exact (abs_of_pos (by norm_num)).le
  · simp [delete_selected_expense, cexTolState, deleteScan, hm]

/-- C4 witness: the malformed amounts "abc", "-5" and "0" are all
rejected with `InvalidAmount`, and the state is untouched. -/
theorem C4_witness :
    (addExpense "2024-05-01" wAbcFields wAddState).2 =
      some AddError.invalidAmount ∧
    (addExpense "2024-05-01" wNegFields wAddState).2 =
      some AddError.invalidAmount ∧
    (addExpense "2024-05-01" wZeroFields wAddState).2 =
      some AddError.invalidAmount ∧
    (addExpense "2024-05-01" wAbcFields wAddState).1 = wAddState := by
  have h1 := (C4_invalid_amount "2024-05-01" wAbcFields wAddState
    (by decide) (by decide)).1.mpr (Or.inl rfl)
  have h2 := (C4_invalid_amount "2024-05-01" wNegFields wAddState
    (by decide) (by decide)).1.mpr (Or.inr ⟨-5, rfl, by norm_num⟩)
  have h3 := (C4_invalid_amount "2024-05-01" wZeroFields wAddState
    (by decide) (by decide)).1.mpr (Or.inr ⟨0, rfl, le_refl 0⟩)
  exact ⟨h1, h2, h3, (C4_invalid_amount "2024-05-01" wAbcFields wAddState
    (by decide) (by decide)).2 _ h1⟩

/-- C5 witness: the non-blank date "2024/05/01" fails the canonical
format and `add` reports `InvalidDate` leaving the state unchanged. -/
theorem C5_witness :
    pyStrip wBadDateFields.date ≠ "" ∧
    strptimeYmd (pyStrip wBadDateFields.date) = none ∧
    addExpense "2024-05-01" wBadDateFields wAddState =
      (wAddState, some AddError.invalidDate) :=
  ⟨by decide, by decide,
    (C5_date_validation "2024-05-01" wBadDateFields wAddState).2.1
      (by decide) (by decide)⟩

/-- C10 witness: a successful concrete delete keeps the untouched
copy of the duplicate record and rewrites the file accordingly. -/
theorem C10_witness :
    ∃ i, ∃ hi : i < wDelState.expenses.length,
      matchesCandidate wDelCand (wDelState.expenses.get ⟨i, hi⟩) = true ∧
      (delete_selected_expense wDelCand wDelState).1.expenses =
        wDelState.expenses.take i ++ wDelState.expenses.drop (i + 1) ∧
      (delete_selected_expense wDelCand wDelState).1.file =
        FileState.file (ExcelContent.sheet
          (save_expenses
            ((delete_selected_expense wDelCand wDelState).1.expenses))) := by
  apply C10_delete_frame
  have hm : matchesCandidate wDelCand wDelExp = true := by
    norm_num [matchesCandidate, wDelCand, wDelExp]
  simp [delete_selected_expense, wDelState, deleteScan, hm]

end ExpenseTracker
